import Mathlib

/-!
Verification of the slot-override resolution pipeline of the component
library, centered on `src/packages/mui-joy/src/FormControl/FormControl.tsx`.

Pure parts of the pipeline are embedded as executable Lean definitions.
JavaScript values that can be `undefined` are embedded as `Option`;
JavaScript truthiness on strings (`undefined`, `''` are falsy) is made
explicit where the code relies on it.

Helpers that live elsewhere in the repository (composeClasses from
mui-base, useSlot, useThemeProps) are not part of the examined sources;
those are modelled from the specification text, and each such definition
carries a doc comment saying so.
-/

/-- Embedding of `unstable_capitalize` from mui-utils as used by the source:
`string.charAt(0).toUpperCase() + string.slice(1)`. -/
def capitalize (s : String) : String :=
  match s.data with
  | [] => ""
  | c :: cs => String.mk (c.toUpper :: cs)

/-- The fields of FormControl's `ownerState` read by the class pipeline
(FormControl.tsx lines 104-114).  `color`, `size` and `orientation` are
string enums that may be `undefined` in a raw owner state, hence `Option`. -/
structure FormControlOwnerState where
  disabled : Bool
  error : Bool
  required : Bool
  color : Option String
  size : Option String
  orientation : Option String
deriving DecidableEq, Repr

/-- A slot-class entry as built by `useUtilityClasses` (FormControl.tsx
lines 16-25): each array element is either a string token or a falsy
JavaScript value.  `none` stands for `undefined`/`false`; an empty string
`some ""` stands for the falsy `''` that `color && ...` or `size && ...`
evaluates to when the enum value is the empty string. -/
def slotsRoot (o : FormControlOwnerState) : List (Option String) :=
  [ some "root",
    o.orientation,
    if o.disabled then some "disabled" else none,
    if o.error then some "error" else none,
    o.color.map (fun c => if c = "" then "" else "color" ++ capitalize c),
    o.size.map (fun s => if s = "" then "" else "size" ++ capitalize s) ]

/-- Keeps a class entry exactly when it is truthy in JavaScript:
defined and a non-empty string. -/
def truthyEntry (e : Option String) : Option String :=
  match e with
  | none => none
  | some s => if s = "" then none else some s

/-- Order-preserving deduplication where the first occurrence wins,
written with an accumulator of already-seen tokens. -/
def dedupFirstAux (seen : List String) : List String → List String
  | [] => []
  | x :: xs => if x ∈ seen then dedupFirstAux seen xs else x :: dedupFirstAux (x :: seen) xs

def dedupFirst (l : List String) : List String := dedupFirstAux [] l

/-- Modelled from the spec: `composeClasses` (mui-base, not among the
examined sources) reduces each slot's entry array by dropping falsy
entries; tokens are deduplicated with order preserved, first occurrence
winning (spec section 4.3 steps 2-3). -/
def composeSlotTokens (entries : List (Option String)) : List String :=
  dedupFirst (entries.filterMap truthyEntry)

/-- The composed semantic token set of FormControl's root slot:
`useUtilityClasses` (FormControl.tsx lines 14-28) restricted to the
token level. -/
def rootTokens (o : FormControlOwnerState) : List String :=
  composeSlotTokens (slotsRoot o)

/-- A JavaScript value held by a prop bag: enough structure to distinguish
strings, booleans and numbers, with decidable equality. -/
inductive Val where
  | str : String → Val
  | boolean : Bool → Val
  | num : Nat → Val
deriving DecidableEq, Repr

/-- A JavaScript object viewed as a flat mapping: `none` covers both a
missing key and a key explicitly set to `undefined`, which the pipeline
never tells apart. -/
def PropBag : Type := String → Option Val

/-- The owner-state merge at FormControl.tsx lines 104-114: the object
spread `{ ...props, id, component, color, disabled, error, required,
size, orientation }`.  A key listed after the spread (the internal state)
wins whenever it is present; every other key keeps its `props` value. -/
def buildOwnerState (resolvedProps internalState : PropBag) : PropBag :=
  fun k =>
    match internalState k with
    | some v => some v
    | none => resolvedProps k

/-- Modelled from the spec: `useThemeProps` (FormControl.tsx lines 82-86
delegates to mui-system code that is not among the examined sources).
Looks up the theme-default fragment for the component name; every default
key that is missing or `undefined` in the input props is filled from the
fragment; explicit falsy values are kept; unregistered names return the
input unchanged (spec sections 4.1 and 7). -/
def resolveThemeDefaults (themeDefaults : String → Option PropBag)
    (name : String) (props : PropBag) : PropBag :=
  match themeDefaults name with
  | none => props
  | some d => fun k =>
      match props k with
      | some v => some v
      | none => d k

/-- The FormControl input props consumed by lines 88-99 of the source,
each `Option` because the caller may omit it. -/
structure FormControlProps where
  id : Option String
  className : Option String
  component : Option String
  disabled : Option Bool
  required : Option Bool
  error : Option Bool
  color : Option String
  size : Option String
  orientation : Option String
deriving DecidableEq, Repr

/-- JavaScript default-on-undefined: the value when present, the fallback
otherwise. -/
def jsOr {α : Type} (v d : Option α) : Option α :=
  match v with
  | some x => some x
  | none => d

/-- Modelled from the spec: the theme-defaults step of `useThemeProps`
specialised to FormControl's structured props, applying the fragment
key by key as in section 4.1 (only missing or `undefined` keys are
filled). -/
def formControlThemeProps (frag inProps : FormControlProps) : FormControlProps :=
  { id := jsOr inProps.id frag.id,
    className := jsOr inProps.className frag.className,
    component := jsOr inProps.component frag.component,
    disabled := jsOr inProps.disabled frag.disabled,
    required := jsOr inProps.required frag.required,
    error := jsOr inProps.error frag.error,
    color := jsOr inProps.color frag.color,
    size := jsOr inProps.size frag.size,
    orientation := jsOr inProps.orientation frag.orientation }

/-- The destructuring with local defaults at FormControl.tsx lines 88-99
followed by the owner-state build at lines 104-114, restricted to the
styling fields: `disabled = false`, `required = false`, `error = false`,
`size = 'md'`, `orientation = 'vertical'`; `color` has no local default. -/
def formControlOwnerState (props : FormControlProps) : FormControlOwnerState :=
  { disabled := props.disabled.getD false,
    error := props.error.getD false,
    required := props.required.getD false,
    color := props.color,
    size := some (props.size.getD "md"),
    orientation := some (props.orientation.getD "vertical") }

/-- The owner state a FormControl render computes from raw input props:
theme defaults first, then the local destructuring defaults. -/
def formControlRenderOwnerState (frag inProps : FormControlProps) : FormControlOwnerState :=
  formControlOwnerState (formControlThemeProps frag inProps)

/-- `clsx` on two string-or-undefined arguments (the external clsx
package, as called at FormControl.tsx line 141): truthy arguments joined
by single spaces, falsy arguments skipped. -/
def clsx2 (a b : Option String) : String :=
  match truthyEntry a, truthyEntry b with
  | none, none => ""
  | some x, none => x
  | none, some y => y
  | some x, some y => x ++ " " ++ y

/-- The final className of the resolved root slot: line 141 computes
`clsx(classes.root, className)` from the internally generated class
string and the caller-supplied `className`.  Modelled from the spec for
the `useSlot` leg (not among the examined sources): the resolver
concatenates the computed className, never replaces it (spec section
4.4 (e)). -/
def rootSlotClassName (internalClasses : String) (callerClassName : Option String) : String :=
  clsx2 (some internalClasses) callerClassName

/-- Static description of one slot: its name, the render target used when
the caller supplies no override, and whether this slot is the declared
ref target (spec section 3, SlotDescriptor). -/
structure SlotDescriptor where
  name : String
  defaultRenderTarget : String
  isRefTarget : Bool
deriving DecidableEq, Repr

/-- The outcome of resolving one slot: the render target identifier and
the ref it receives, if any (refs are opaque handles). -/
structure ResolvedSlot where
  name : String
  renderTarget : String
  ref : Option Nat
deriving DecidableEq, Repr

/-- Modelled from the spec: `useSlot` / the Slot Resolver (not among the
examined sources).  The render target is the caller override for exactly
this slot name when one was supplied, the declared default otherwise;
the forwarded ref goes to the slot precisely when it is the declared ref
target (spec section 4.4). -/
def resolveSlot (overrides : String → Option String) (forwardedRef : Nat)
    (d : SlotDescriptor) : ResolvedSlot :=
  { name := d.name,
    renderTarget := (overrides d.name).getD d.defaultRenderTarget,
    ref := if d.isRefTarget then some forwardedRef else none }

/-- Resolving a component's full declared slot list in one render. -/
def resolveSlots (overrides : String → Option String) (forwardedRef : Nat)
    (ds : List SlotDescriptor) : List ResolvedSlot :=
  ds.map (resolveSlot overrides forwardedRef)

/-- FormControl's declared slots: one root slot, the ref target, rendered
by the styled FormControlRoot (FormControl.tsx lines 139-145). -/
def formControlSlots : List SlotDescriptor :=
  [{ name := "root", defaultRenderTarget := "FormControlRoot", isRefTarget := true }]

/-- One call of `registerEffect` (FormControl.tsx lines 116-135,
non-production branch): reads the `registeredInput` ref, fires the
advisory console warning exactly when it was already true, then sets the
ref to true.  Returns (warning fired, new ref value); the function is
total, so a call never throws and never interrupts the render. -/
def registerEffectCall (registeredInput : Bool) : Bool × Bool :=
  (registeredInput, true)

/-- The cleanup closure returned by `registerEffect` (FormControl.tsx
lines 131-133): sets the ref back to false regardless of its value. -/
def registerCleanup (_registeredInput : Bool) : Bool := false

/-- The data fields of the context object FormControl broadcasts
(FormControl.tsx lines 147-161). -/
structure FormControlContextValue where
  disabled : Bool
  required : Bool
  error : Bool
  color : Option String
  size : String
  htmlFor : String
  labelId : String
  ariaDescribedby : Option String
deriving DecidableEq, Repr

/-- `formControlContextValue` (FormControl.tsx lines 147-161) built from
the destructured state: `htmlFor` is the resolved id, `labelId` the id
with "-label" appended, and 'aria-describedby' is the id with
"-helper-text" appended when a helper-text element (an opaque handle
here) has been registered via `setHelperText`, `undefined` otherwise. -/
def formControlContextValue (disabled required error : Bool) (color : Option String)
    (size : String) (id : String) (helperText : Option Nat) : FormControlContextValue :=
  { disabled := disabled,
    required := required,
    error := error,
    color := color,
    size := size,
    htmlFor := id,
    labelId := id ++ "-label",
    ariaDescribedby := if helperText.isSome then some (id ++ "-helper-text") else none }

/-! ## Helper lemmas -/

theorem mem_dedupFirstAux (a : String) (l : List String) :
    ∀ seen, a ∈ dedupFirstAux seen l ↔ (a ∈ l ∧ a ∉ seen) := by
  induction l with
  | nil => intro seen; simp [dedupFirstAux]
  | cons x xs ih =>
    intro seen
    by_cases hx : x ∈ seen
    · rw [dedupFirstAux, if_pos hx, ih seen]
      simp only [List.mem_cons]
      constructor
      · rintro ⟨h1, h2⟩
        exact ⟨Or.inr h1, h2⟩
      · rintro ⟨h1 | h1, h2⟩
        · exact absurd (by rwa [h1]) h2
        · exact ⟨h1, h2⟩
    · rw [dedupFirstAux, if_neg hx]
      simp only [List.mem_cons, ih]
      constructor
      · rintro (h | ⟨h1, h2⟩)
        · subst h
          exact ⟨Or.inl rfl, hx⟩
        · push_neg at h2
          exact ⟨Or.inr h1, h2.2⟩
      · rintro ⟨h1 | h1, h2⟩
        · exact Or.inl h1
        · by_cases hax : a = x
          · exact Or.inl hax
          · refine Or.inr ⟨h1, ?_⟩
            push_neg
            exact ⟨hax, h2⟩

theorem mem_dedupFirst (a : String) (l : List String) : a ∈ dedupFirst l ↔ a ∈ l := by
  rw [dedupFirst, mem_dedupFirstAux]
  simp

theorem color_append_head (c : String) : ("color" ++ c).data.head? = some 'c' := rfl

theorem size_append_head (s : String) : ("size" ++ s).data.head? = some 's' := rfl

theorem color_append_ne (c t : String) (ht : t.data.head? ≠ some 'c') :
    "color" ++ c ≠ t :=
  fun he => ht (he ▸ color_append_head c)

theorem color_append_ne_empty (c : String) : "color" ++ c ≠ "" :=
  color_append_ne c "" (by decide)

theorem size_append_ne_empty (s : String) : "size" ++ s ≠ "" :=
  fun he => Option.noConfusion (he ▸ size_append_head s)

/-- The contribution of one slot-class entry to the composed token list:
its token when the entry is truthy, nothing otherwise. -/
def entryTokens (e : Option String) : List String :=
  match e with
  | none => []
  | some s => if s = "" then [] else [s]

theorem filterMap_truthy_cons (e : Option String) (l : List (Option String)) :
    (e :: l).filterMap truthyEntry = entryTokens e ++ l.filterMap truthyEntry := by
  rcases e with _ | s
  · simp [truthyEntry, entryTokens]
  · by_cases hs : s = "" <;> simp [truthyEntry, entryTokens, hs]

theorem entryTokens_bool (b : Bool) (t : String) (ht : t ≠ "") :
    entryTokens (if b then some t else none) = if b then [t] else [] := by
  cases b <;> simp [entryTokens, ht]

theorem entryTokens_color (c : Option String) :
    entryTokens (c.map (fun x => if x = "" then "" else "color" ++ capitalize x)) =
      (match c with
        | some x => if x = "" then [] else ["color" ++ capitalize x]
        | none => []) := by
  rcases c with _ | x
  · rfl
  · by_cases hx : x = ""
    · simp [entryTokens, hx]
    · simp [entryTokens, hx, color_append_ne_empty]

theorem entryTokens_size (s : Option String) :
    entryTokens (s.map (fun x => if x = "" then "" else "size" ++ capitalize x)) =
      (match s with
        | some x => if x = "" then [] else ["size" ++ capitalize x]
        | none => []) := by
  rcases s with _ | x
  · rfl
  · by_cases hx : x = ""
    · simp [entryTokens, hx]
    · simp [entryTokens, hx, size_append_ne_empty]

/-! ## Claim theorems -/

/-- C1 counterexample: with `orientation = "horizontal"` (defined and
non-empty) and every other styling dimension absent, the composed root
token set is `["root", "horizontal"]`: the orientation dimension emits
its raw value, and the token `"orientationHorizontal"` claimed by the
`dimensionName + PascalCase(value)` rule for enum dimensions is never
emitted. -/
theorem rootTokens_orientation_counterexample :
    (FormControlOwnerState.mk false false false none none (some "horizontal")).orientation
        = some "horizontal" ∧
    "orientationHorizontal" ∉
        rootTokens (FormControlOwnerState.mk false false false none none (some "horizontal")) ∧
    rootTokens (FormControlOwnerState.mk false false false none none (some "horizontal"))
        = ["root", "horizontal"] := by
  decide

/-- C1 (amended): for every ownerState, the boolean dimensions
(`disabled`, `error`) contribute their fixed literal token exactly when
true; the enum dimensions `color` and `size` contribute
`dimensionName + PascalCase(value)` exactly when the value is defined and
non-empty; the `orientation` dimension contributes its raw value exactly
when it is defined and non-empty; an undefined or empty value emits no
token for its dimension. -/
theorem rootTokens_dimension_contributions (o : FormControlOwnerState) :
    rootTokens o = dedupFirst
      (["root"] ++ entryTokens o.orientation
        ++ (if o.disabled then ["disabled"] else [])
        ++ (if o.error then ["error"] else [])
        ++ (match o.color with
            | some x => if x = "" then [] else ["color" ++ capitalize x]
            | none => [])
        ++ (match o.size with
            | some x => if x = "" then [] else ["size" ++ capitalize x]
            | none => [])) := by
  rw [rootTokens, composeSlotTokens]
  congr 1
  rw [slotsRoot]
  simp only [filterMap_truthy_cons, List.filterMap_nil, List.append_nil,
    entryTokens_color, entryTokens_size]
  rw [entryTokens_bool o.disabled "disabled" (by decide),
    entryTokens_bool o.error "error" (by decide),
    show entryTokens (some "root") = ["root"] from by decide]
  simp [List.append_assoc]

/-- The owner state of the C2 scenario: orientation "horizontal", size
"sm", no color, no flags set. -/
def oHorizontalSm : FormControlOwnerState :=
  ⟨false, false, false, none, some "sm", some "horizontal"⟩

/-- C2: for a FormControl ownerState with orientation "horizontal", size
"sm" and no color, the composed root token set is exactly
`["root", "horizontal", "sizeSm"]`; it includes "horizontal" and
"sizeSm" and contains no token of the form `"color" ++ x`. -/
theorem rootTokens_horizontal_sm (c : String) :
    rootTokens oHorizontalSm = ["root", "horizontal", "sizeSm"] ∧
    "horizontal" ∈ rootTokens oHorizontalSm ∧
    "sizeSm" ∈ rootTokens oHorizontalSm ∧
    ("color" ++ c) ∉ rootTokens oHorizontalSm := by
  refine ⟨by decide, by decide, by decide, ?_⟩
  intro hmem
  rw [show rootTokens oHorizontalSm = ["root", "horizontal", "sizeSm"] from by decide] at hmem
  simp only [List.mem_cons, List.not_mem_nil, or_false] at hmem
  rcases hmem with h | h | h
  · exact color_append_ne c "root" (by decide) h
  · exact color_append_ne c "horizontal" (by decide) h
  · exact color_append_ne c "sizeSm" (by decide) h

/-- C3: the final className of the resolved root slot is the internally
generated class string followed by the caller-supplied `className`,
separated by a space: the caller's names never replace the internal ones,
and both remain present; an absent caller className leaves the internal
names unchanged. -/
theorem rootSlotClassName_concat (internal caller : String)
    (hi : internal ≠ "") (hc : caller ≠ "") :
    rootSlotClassName internal (some caller) = internal ++ " " ++ caller ∧
    rootSlotClassName internal none = internal := by
  constructor
  · simp [rootSlotClassName, clsx2, truthyEntry, hi, hc]
  · simp [rootSlotClassName, clsx2, truthyEntry, hi]

/-- C3 witness: the concatenation law evaluated on a concrete internal
class string and a concrete caller className. -/
theorem rootSlotClassName_concat_witness :
    rootSlotClassName "JoyFormControl-root JoyFormControl-horizontal" (some "my-form") =
      "JoyFormControl-root JoyFormControl-horizontal my-form" :=
  (rootSlotClassName_concat "JoyFormControl-root JoyFormControl-horizontal" "my-form"
    (by decide) (by decide)).1

/-- C4: the owner-state build merges resolved props and internal state
into one flat mapping; on a key present in both, the internal-state
value wins; on a key absent from the internal state, the resolved-props
value is kept. -/
theorem buildOwnerState_internal_precedence (p i : PropBag) (k : String) :
    (∀ v w, i k = some v → p k = some w → buildOwnerState p i k = some v) ∧
    (∀ v, i k = some v → buildOwnerState p i k = some v) ∧
    (i k = none → buildOwnerState p i k = p k) := by
    refine ⟨fun v w hv _ => ?_, fun v hv => ?_, fun hv => ?_⟩ <;>
      simp [buildOwnerState, hv]

/-- C4 witness: concrete resolved props carrying `size = "lg"` and
internal state carrying `size = "md"`; the merge keeps the internal
`"md"` and keeps the props-only key `className`. -/
theorem buildOwnerState_internal_precedence_witness :
    buildOwnerState
        (fun k => if k = "size" then some (Val.str "lg")
          else if k = "className" then some (Val.str "outer") else none)
        (fun k => if k = "size" then some (Val.str "md")
          else if k = "id" then some (Val.str "fc-1") else none)
        "size" = some (Val.str "md") :=
  (buildOwnerState_internal_precedence
      (fun k => if k = "size" then some (Val.str "lg")
        else if k = "className" then some (Val.str "outer") else none)
      (fun k => if k = "size" then some (Val.str "md")
        else if k = "id" then some (Val.str "fc-1") else none)
      "size").1 (Val.str "md") (Val.str "lg") rfl rfl

/-- C5: resolving theme defaults is idempotent, for registered and
unregistered component names alike: a second application finds every
previously injected key already defined and injects nothing. -/
theorem resolveThemeDefaults_idem (td : String → Option PropBag)
    (name : String) (props : PropBag) :
    resolveThemeDefaults td name (resolveThemeDefaults td name props) =
      resolveThemeDefaults td name props := by
  unfold resolveThemeDefaults
  cases htd : td name with
  | none => rfl
  | some d =>
    funext k
    cases hp : props k with
    | some v => simp [hp]
    | none =>
      simp only [hp]
      cases hd : d k <;> simp [hd]

/-- C6: a render resolving a component's declared slot list hands the
forwarded ref to exactly one resolved slot whenever exactly one declared
slot is the ref target. -/
theorem resolveSlots_ref_singular (ov : String → Option String) (r : Nat)
    (ds : List SlotDescriptor) (h : ds.countP (fun d => d.isRefTarget) = 1) :
    (resolveSlots ov r ds).countP (fun s => s.ref.isSome) = 1 := by
  have hf : ((fun s : ResolvedSlot => s.ref.isSome) ∘ resolveSlot ov r) =
      fun d => d.isRefTarget := by
    funext d
    simp only [Function.comp, resolveSlot]
    cases d.isRefTarget <;> simp
  rw [resolveSlots, List.countP_map, hf, h]

/-- C6 witness: FormControl declares a single ref-target root slot, and
the resolved render hands the forwarded ref to exactly one slot. -/
theorem resolveSlots_ref_singular_witness :
    (resolveSlots (fun _ => none) 7 formControlSlots).countP
      (fun s => s.ref.isSome) = 1 :=
  resolveSlots_ref_singular (fun _ => none) 7 formControlSlots (by decide)

/-- C7: a resolved slot's render target is the caller override exactly
when the caller supplied one for that slot's name, and the declared
default otherwise; two override tables that agree on every declared slot
name resolve identically, so an override for a nonexistent slot name has
no effect. -/
theorem resolveSlot_renderTarget_resolution (ov ov2 : String → Option String)
    (r : Nat) (ds : List SlotDescriptor) :
    (∀ d : SlotDescriptor, ∀ t, ov d.name = some t →
        (resolveSlot ov r d).renderTarget = t) ∧
    (∀ d : SlotDescriptor, ov d.name = none →
        (resolveSlot ov r d).renderTarget = d.defaultRenderTarget) ∧
    ((∀ d ∈ ds, ov d.name = ov2 d.name) →
        resolveSlots ov r ds = resolveSlots ov2 r ds) := by
  refine ⟨fun d t ht => ?_, fun d ht => ?_, fun hagree => ?_⟩
  · simp [resolveSlot, ht]
  · simp [resolveSlot, ht]
  · rw [resolveSlots, resolveSlots]
    induction ds with
    | nil => rfl
    | cons x xs ih =>
      rw [List.map_cons, List.map_cons]
      have hx : resolveSlot ov r x = resolveSlot ov2 r x := by
        simp [resolveSlot, hagree x (List.mem_cons_self x xs)]
      rw [hx, ih (fun d hd => hagree d (List.mem_cons_of_mem x hd))]

/-- C7 witness: an override for the declared "root" slot replaces the
render target; with no override the declared default is used; an
override table touching only the nonexistent slot name "ghost" resolves
FormControl's slots exactly as the empty table does. -/
theorem resolveSlot_renderTarget_resolution_witness :
    (resolveSlot (fun n => if n = "root" then some "CustomDiv" else none) 0
        ⟨"root", "FormControlRoot", true⟩).renderTarget = "CustomDiv" ∧
    (resolveSlot (fun _ => none) 0
        ⟨"root", "FormControlRoot", true⟩).renderTarget = "FormControlRoot" ∧
    resolveSlots (fun n => if n = "ghost" then some "Ignored" else none) 0 formControlSlots =
      resolveSlots (fun _ => none) 0 formControlSlots :=
  ⟨(resolveSlot_renderTarget_resolution
        (fun n => if n = "root" then some "CustomDiv" else none) (fun _ => none) 0
        formControlSlots).1 ⟨"root", "FormControlRoot", true⟩ "CustomDiv" rfl,
   (resolveSlot_renderTarget_resolution (fun _ => none) (fun _ => none) 0
        formControlSlots).2.1 ⟨"root", "FormControlRoot", true⟩ rfl,
   (resolveSlot_renderTarget_resolution
        (fun n => if n = "ghost" then some "Ignored" else none) (fun _ => none) 0
        formControlSlots).2.2 (by decide)⟩

/-- C8: one registration cycle of the non-production advisory flag: a
call warns exactly when the flag was already set, always sets the flag,
and never throws (the step function is total); the returned cleanup
resets the flag to false, so a registration followed by its cleanup
leaves the instance able to register again without a warning. -/
theorem registerEffect_advisory (flag : Bool) :
    (registerEffectCall flag).1 = flag ∧
    (registerEffectCall flag).2 = true ∧
    registerCleanup (registerEffectCall flag).2 = false ∧
    (registerEffectCall (registerCleanup (registerEffectCall flag).2)).1 = false := by
  cases flag <;> exact ⟨rfl, rfl, rfl, rfl⟩

/-- C9: when the caller omits `size` and the theme-default fragment
supplies none, the built owner state still has `size = "md"` and the
composed root token set contains "sizeMd"; likewise orientation defaults
to "vertical" and the disabled, error and required flags default to
false when absent everywhere. -/
theorem formControl_size_defaults (frag inProps : FormControlProps)
    (hs : inProps.size = none) (hts : frag.size = none) :
    (formControlRenderOwnerState frag inProps).size = some "md" ∧
    "sizeMd" ∈ rootTokens (formControlRenderOwnerState frag inProps) ∧
    (inProps.orientation = none → frag.orientation = none →
        (formControlRenderOwnerState frag inProps).orientation = some "vertical") ∧
    (inProps.disabled = none → frag.disabled = none →
        (formControlRenderOwnerState frag inProps).disabled = false) ∧
    (inProps.error = none → frag.error = none →
        (formControlRenderOwnerState frag inProps).error = false) ∧
    (inProps.required = none → frag.required = none →
        (formControlRenderOwnerState frag inProps).required = false) := by
  have hsz : (formControlRenderOwnerState frag inProps).size = some "md" := by
    simp [formControlRenderOwnerState, formControlOwnerState, formControlThemeProps,
      jsOr, hs, hts]
  refine ⟨hsz, ?_, ?_, ?_, ?_, ?_⟩
  · rw [rootTokens, composeSlotTokens, mem_dedupFirst]
    apply List.mem_filterMap.mpr
    refine ⟨(formControlRenderOwnerState frag inProps).size.map
        (fun x => if x = "" then "" else "size" ++ capitalize x), ?_, ?_⟩
    · simp [slotsRoot]
    · rw [hsz]
      decide
  · intro h1 h2
    simp [formControlRenderOwnerState, formControlOwnerState, formControlThemeProps,
      jsOr, h1, h2]
  · intro h1 h2
    simp [formControlRenderOwnerState, formControlOwnerState, formControlThemeProps,
      jsOr, h1, h2]
  · intro h1 h2
    simp [formControlRenderOwnerState, formControlOwnerState, formControlThemeProps,
      jsOr, h1, h2]
  · intro h1 h2
    simp [formControlRenderOwnerState, formControlOwnerState, formControlThemeProps,
      jsOr, h1, h2]

/-- A FormControl invocation with every prop omitted and an empty
theme-default fragment. -/
def emptyFormControlProps : FormControlProps :=
  ⟨none, none, none, none, none, none, none, none, none⟩

/-- C9 witness: with every prop omitted and no theme defaults, the owner
state carries `size = "md"` and `orientation = "vertical"`, and the root
tokens contain "sizeMd". -/
theorem formControl_size_defaults_witness :
    (formControlRenderOwnerState emptyFormControlProps emptyFormControlProps).size
        = some "md" ∧
    "sizeMd" ∈ rootTokens (formControlRenderOwnerState emptyFormControlProps
        emptyFormControlProps) ∧
    (formControlRenderOwnerState emptyFormControlProps emptyFormControlProps).orientation
        = some "vertical" :=
  have h := formControl_size_defaults emptyFormControlProps emptyFormControlProps rfl rfl
  ⟨h.1, h.2.1, h.2.2.1 rfl rfl⟩

/-- C10: in the broadcast context value, 'aria-describedby' equals
`id ++ "-helper-text"` exactly when a helper-text element is registered
and is undefined otherwise, while `labelId` always equals
`id ++ "-label"` and `htmlFor` always equals the resolved id. -/
theorem formControlContextValue_fields (disabled required error : Bool)
    (color : Option String) (size id : String) (helperText : Option Nat) :
    ((formControlContextValue disabled required error color size id helperText).ariaDescribedby
        = some (id ++ "-helper-text") ↔ helperText ≠ none) ∧
    (helperText = none →
      (formControlContextValue disabled required error color size id helperText).ariaDescribedby
        = none) ∧
    (formControlContextValue disabled required error color size id helperText).labelId
        = id ++ "-label" ∧
    (formControlContextValue disabled required error color size id helperText).htmlFor
        = id := by
  refine ⟨?_, ?_, rfl, rfl⟩
  · cases helperText <;> simp [formControlContextValue]
  · intro h
    subst h
    rfl

/-- C10 witness: with a registered helper text the context value carries
the derived describedby id; without one it carries none; the label id is
always derived from the resolved id. -/
theorem formControlContextValue_fields_witness :
    (formControlContextValue false true false none "md" "fc-1" (some 0)).ariaDescribedby
        = some "fc-1-helper-text" ∧
    (formControlContextValue false true false none "md" "fc-1" none).ariaDescribedby
        = none ∧
    (formControlContextValue false true false none "md" "fc-1" none).labelId
        = "fc-1-label" :=
  ⟨((formControlContextValue_fields false true false none "md" "fc-1" (some 0)).1).mpr
      (by decide),
   (formControlContextValue_fields false true false none "md" "fc-1" none).2.1 rfl,
   (formControlContextValue_fields false true false none "md" "fc-1" none).2.2.1⟩

/-- C2 witness: the scenario evaluated concretely, including that the
color-variant token "colorPrimary" is absent. -/
theorem rootTokens_horizontal_sm_witness :
    rootTokens oHorizontalSm = ["root", "horizontal", "sizeSm"] ∧
    "colorPrimary" ∉ rootTokens oHorizontalSm :=
  ⟨(rootTokens_horizontal_sm "Primary").1, (rootTokens_horizontal_sm "Primary").2.2.2⟩
